import Mathlib

/-
  Verification of the experiment-orchestration and artifact-addressing layer of the
  Hybrid-Concept-based-Models repository.

  The development shallowly embeds `src/common/path_utils.py` and `evaluation.py`.
  Python dictionaries are modelled as insertion-ordered association lists, the
  filesystem as a function from path strings to optional file contents, and the
  training / evaluation drivers as trace-producing or result-producing functions
  parameterised over their external collaborators (trainers, dataloaders, models).
  Constants from `src/constants.py` (folder names, model-name registries), which are
  not part of the provided sources, are kept abstract as parameters.
-/

namespace HybridCBM

/-! ## Python dictionaries as insertion-ordered association lists -/

/-- Lookup in an insertion-ordered association list (Python `d[k]`, as `Option`). -/
def dictGet {α : Type} (d : List (String × α)) (k : String) : Option α :=
  match d with
  | [] => none
  | (k2, v2) :: rest => if k2 = k then some v2 else dictGet rest k

/-- Python `d[k] = v`: replace the binding in place if the key is present,
    otherwise append it (Python dictionaries keep insertion order). -/
def dictInsert {α : Type} (d : List (String × α)) (k : String) (v : α) : List (String × α) :=
  match d with
  | [] => [(k, v)]
  | (k2, v2) :: rest => if k2 = k then (k, v) :: rest else (k2, v2) :: dictInsert rest k v

/-- Boolean test that the keys of an association list are pairwise distinct
    (always true for a list obtained from a Python dictionary). -/
def keysNodup {α : Type} : List (String × α) → Bool
  | [] => true
  | (k, _) :: rest => !(rest.any (fun p => p.1 == k)) && keysNodup rest

/-! ## Python string primitives -/

/-- Python `str.lower()` (character-wise). -/
def pyLower (s : String) : String := ⟨s.data.map Char.toLower⟩

/-- Python `str.strip()`: drop whitespace from both ends. -/
def pyStrip (s : String) : String :=
  ⟨((s.data.dropWhile Char.isWhitespace).reverse.dropWhile Char.isWhitespace).reverse⟩

/-- Composition `s.strip().lower()` used by the model save/load path functions. -/
def pyStripLower (s : String) : String := pyLower (pyStrip s)

/-- Python `str(x)` for an optional integer: `None` prints as "None". -/
def pyStr (n : Option Nat) : String :=
  match n with
  | none => "None"
  | some m => toString m

/-- Python `c in s` for a single character c (used for "/" and "\\" membership). -/
def strContainsChar (s : String) (c : Char) : Bool := s.data.contains c

/-! ## path_utils.py: filename validation and path joining -/

/-- Error raised by the path layer. `malformedFilename` models the `ValueError`
    raised by `_check_just_file` when a filename contains a path separator;
    `valueError` models the other `ValueError` checks; `fileNotFound` models a
    failing `open`; `typeError` models Python `TypeError` (such as iterating `None`). -/
inductive PathError where
  | malformedFilename
  | valueError
  | fileNotFound
  | typeError
deriving DecidableEq

/-- Embedding of `_check_just_file` from path_utils.py (string inputs): raises
    `ValueError` when the filename contains "/" or "\\". -/
def check_just_file (filename : String) : Except PathError Unit :=
  if strContainsChar filename '/' || strContainsChar filename '\\' then
    .error .malformedFilename
  else
    .ok ()

/-- Embedding of `make_file_path` from path_utils.py. The returned Bool records
    whether `create_folder(folder, exist_ok=True)` was invoked, namely exactly when
    `check_folder_exists` is true; the returned string is the joined posix path. -/
def make_file_path (folder filename : String) (checkFolderExists : Bool) :
    Except PathError (Bool × String) :=
  match check_just_file filename with
  | .error e => .error e
  | .ok _ => .ok (checkFolderExists, folder ++ "/" ++ filename)

/-! ## path_utils.py: Shapes folder naming

The folder names from `src/constants.py` are not part of the provided sources, so
they are kept abstract in a parameter structure. Paths built from `pathlib.Path`
components are modelled as posix strings joined with "/"; the trailing slash of
the f-string in `get_shapes_folder_name` is dropped, mirroring `pathlib`
normalisation. -/

/-- Abstract stand-ins for the folder/file-name constants imported from
    `src/constants.py` (that file is not among the provided sources). -/
structure PathConstants where
  resultsFolder : String
  hyperparametersFolder : String
  savedModelsFolder : String
  historyFolder : String
  plotsFolder : String
  shapesFolder : String
  fastFileSoft : String
  fastFileHard : String
  defaultFileSoft : String
  defaultFileHard : String
  modelStringsAllShapes : List String

/-- Embedding of `get_shapes_folder_name`: the f-string `c{n}_a{a}_s{s}`. The
    arguments are taken pre-formatted as strings, matching the duck-typed
    f-string interpolation of the source. -/
def get_shapes_folder_name (nClasses nAttr signalStrength : String) : String :=
  "c" ++ nClasses ++ "_a" ++ nAttr ++ "_s" ++ signalStrength

/-- Embedding of `get_full_shapes_folder_path`:
    RESULTS_FOLDER / relative_folder / SHAPES_FOLDER / get_shapes_folder_name(...). -/
def get_full_shapes_folder_path (C : PathConstants) (nClasses nAttr signalStrength : String)
    (relativeFolder : String) : String :=
  C.resultsFolder ++ "/" ++ relativeFolder ++ "/" ++ C.shapesFolder ++ "/" ++
    get_shapes_folder_name nClasses nAttr signalStrength

/-! ## path_utils.py: model checkpoint save/load paths -/

/-- Filename built by `load_model_shapes` before joining with the folder:
    f"{model_type}_sub{n_subset}_{metric}{bottleneck}{adversarial_string}.pth"
    with bottleneck = "" if not hard_bottleneck else "_hard"
    (note: no special case for model_type == "cnn" here). -/
def load_model_shapes_filename (modelType : String) (nSubset : Nat) (metric : String)
    (hardBottleneck adversarial : Bool) : String :=
  let mt := pyStripLower modelType
  let bottleneck := if hardBottleneck then "_hard" else ""
  let adversarialString := if adversarial then "_adversarial" else ""
  mt ++ "_sub" ++ toString nSubset ++ "_" ++ metric ++ bottleneck ++ adversarialString ++ ".pth"

/-- Filename built by `save_model_shapes`:
    bottleneck = "" if (model_type == "cnn") or not hard_bottleneck else "_hard", the
    explicit cnn exception of the source; otherwise identical to the load filename. -/
def save_model_shapes_filename (modelType : String) (nSubset : Nat) (metric : String)
    (hardBottleneck adversarial : Bool) : String :=
  let mt := pyStripLower modelType
  let bottleneck := if mt == "cnn" || !hardBottleneck then "" else "_hard"
  let adversarialString := if adversarial then "_adversarial" else ""
  mt ++ "_sub" ++ toString nSubset ++ "_" ++ metric ++ bottleneck ++ adversarialString ++ ".pth"

/-- Embedding of the path resolution of `load_model_shapes` (up to the actual
    `torch.load`): validates the stripped lower-cased model type against
    MODEL_STRINGS_ALL_SHAPES and joins the saved-models folder with the filename. -/
def load_model_shapes_path (C : PathConstants) (nClasses nAttr signalStrength : String)
    (nSubset : Nat) (modelType metric : String) (hardBottleneck adversarial : Bool) :
    Except PathError String :=
  let mt := pyStripLower modelType
  if mt ∈ C.modelStringsAllShapes then
    let folderName := get_full_shapes_folder_path C nClasses nAttr signalStrength C.savedModelsFolder
    .ok (folderName ++ "/" ++ load_model_shapes_filename modelType nSubset metric hardBottleneck adversarial)
  else
    .error .valueError

/-- Embedding of the path resolution of `save_model_shapes` (up to the actual
    `torch.save`), with the cnn hardness exception in the filename. -/
def save_model_shapes_path (C : PathConstants) (nClasses nAttr signalStrength : String)
    (nSubset : Nat) (modelType metric : String) (hardBottleneck adversarial : Bool) :
    Except PathError String :=
  let mt := pyStripLower modelType
  if mt ∈ C.modelStringsAllShapes then
    let folderName := get_full_shapes_folder_path C nClasses nAttr signalStrength C.savedModelsFolder
    .ok (folderName ++ "/" ++ save_model_shapes_filename modelType nSubset metric hardBottleneck adversarial)
  else
    .error .valueError

/-! ## path_utils.py: hyperparameter store -/

/-- A scalar yaml value of a hyperparameter entry. -/
inductive HVal where
  | b (value : Bool)
  | q (value : ℚ)
  | s (value : String)
deriving DecidableEq

/-- Hyperparameters of a single model: name to value. -/
abbrev HPEntry : Type := List (String × HVal)

/-- A whole hyperparameter file: model_type to its hyperparameters. -/
abbrev HPFile : Type := List (String × HPEntry)

/-- Content of a yaml file as seen by `yaml.safe_load`: `none` models a file whose
    yaml content is `None` (an empty file). -/
abbrev YamlFile : Type := Option HPFile

/-- The filesystem restricted to yaml hyperparameter files: `none` means the path
    does not exist (`os.path.exists` is false and `open` would raise). -/
abbrev FS : Type := String → Option YamlFile

/-- Writing a yaml file at a path. -/
def fsUpdate (fs : FS) (p : String) (content : YamlFile) : FS :=
  fun q => if q = p then some content else fs q

/-- Base folder `results_folder / HYPERPARAMETERS_FOLDER / SHAPES_FOLDER` used for
    the fast and default hyperparameter files. -/
def shapesHPBase (C : PathConstants) : String :=
  C.resultsFolder ++ "/" ++ C.hyperparametersFolder ++ "/" ++ C.shapesFolder

/-- Full path of the subset-specific hyperparameter file
    f"hyperparameters_sub{n_subset}{bottleneck}.yaml" inside the Shapes folder. -/
def hyperparametersFilePath (C : PathConstants) (nClasses nAttr signalStrength nSubset : String)
    (hardBottleneck : Bool) : String :=
  let bottleneck := if hardBottleneck then "_hard" else ""
  get_full_shapes_folder_path C nClasses nAttr signalStrength C.hyperparametersFolder ++ "/" ++
    ("hyperparameters_sub" ++ nSubset ++ bottleneck ++ ".yaml")

/-- Setting of the hard flag performed by the soft-to-hard fallback of
    `load_hyperparameters_shapes`: `hyperparameters[key]["hard"] = True` for every key. -/
def setHardEntry (p : String × HPEntry) : String × HPEntry :=
  (p.1, dictInsert p.2 "hard" (HVal.b true))

/-- Reading of the hardness-specific default (or fast) hyperparameter file in the
    base Shapes hyperparameter folder; `warned` records whether a fallback warning
    was emitted before reaching this read. -/
def loadGlobalHyperparametersShapes (C : PathConstants) (fs : FS) (file : String)
    (warned : Bool) : Except PathError (Bool × YamlFile) :=
  match fs (shapesHPBase C ++ "/" ++ file) with
  | none => .error .fileNotFound
  | some content => .ok (warned, content)

/-- Embedding of `load_hyperparameters_shapes`. The result carries a flag telling
    whether a non-fatal `warnings.warn` was emitted, together with the returned
    yaml content. The generated filenames contain no path separator, so the
    `make_file_path` validation is passed and the join is inlined. -/
def load_hyperparameters_shapes (C : PathConstants) (fs : FS)
    (nClasses nAttr signalStrength nSubset : Option Nat)
    (hardBottleneck fast useDefault : Bool) : Except PathError (Bool × YamlFile) :=
  if (!useDefault && !fast) && (nClasses.isNone || nAttr.isNone || nSubset.isNone) then
    .error .valueError
  else if fast then
    let fastFile := if hardBottleneck then C.fastFileHard else C.fastFileSoft
    loadGlobalHyperparametersShapes C fs fastFile false
  else
    let filePath := hyperparametersFilePath C (pyStr nClasses) (pyStr nAttr)
      (pyStr signalStrength) (pyStr nSubset) hardBottleneck
    if !useDefault && (fs filePath).isNone then
      -- Exact file missing: try the soft-bottleneck file when hard was requested,
      -- otherwise warn and fall back to the defaults.
      if hardBottleneck then
        let altFilePath := hyperparametersFilePath C (pyStr nClasses) (pyStr nAttr)
          (pyStr signalStrength) (pyStr nSubset) false
        match fs altFilePath with
        | some content =>
          match content with
          | none => .error .typeError
          | some hp => .ok (true, some (hp.map setHardEntry))
        | none =>
          loadGlobalHyperparametersShapes C fs
            (if hardBottleneck then C.defaultFileHard else C.defaultFileSoft) true
      else
        loadGlobalHyperparametersShapes C fs
          (if hardBottleneck then C.defaultFileHard else C.defaultFileSoft) true
    else if useDefault then
      loadGlobalHyperparametersShapes C fs
        (if hardBottleneck then C.defaultFileHard else C.defaultFileSoft) false
    else
      match fs filePath with
      | none => .error .fileNotFound
      | some content => .ok (false, content)

/-- Embedding of `save_hyperparameters_shapes`: validate the model type, then
    either create the file with a single entry or read-modify-write, replacing
    only the entry of `model_type` (a `None` yaml content is treated as an empty
    dictionary, as in the source). The result is the updated filesystem. -/
def save_hyperparameters_shapes (C : PathConstants) (fs : FS)
    (nClasses nAttr signalStrength nSubset : Nat) (hyperparametersDict : HPEntry)
    (modelType : String) (hardBottleneck : Bool) : Except PathError FS :=
  if modelType ∈ C.modelStringsAllShapes then
    let filePath := hyperparametersFilePath C (toString nClasses) (toString nAttr)
      (toString signalStrength) (toString nSubset) hardBottleneck
    match fs filePath with
    | none => .ok (fsUpdate fs filePath (some [(modelType, hyperparametersDict)]))
    | some content =>
      let full := content.getD []
      .ok (fsUpdate fs filePath (some (dictInsert full modelType hyperparametersDict)))
  else
    .error .valueError

/-! ## evaluation.py: folder naming of the training loop and driver

Both `train_and_evaluate_shapes` (lines 97-104) and `run_models_on_subsets_and_plot`
(lines 159-161) build their artifact folders by plain string concatenation,
independent of path_utils.py. -/

/-- The class directory string of evaluation.py:
    class_dir = "c" + str(n_classes) + "_a" + str(n_attr) + "/", with "testing/"
    appended in fast mode. -/
def eval_class_dir (nClasses nAttr : Nat) (fast : Bool) : String :=
  let classDir := "c" ++ toString nClasses ++ "_a" ++ toString nAttr ++ "/"
  if fast then classDir ++ "testing/" else classDir

/-- Folder where `train_and_evaluate_shapes` saves model checkpoints:
    save_model_path = "saved_models/" + class_dir + sub_dir. -/
def eval_save_model_path (nClasses nAttr : Nat) (fast : Bool) (subDir : String) : String :=
  "saved_models/" ++ eval_class_dir nClasses nAttr fast ++ subDir

/-- Folder into which the driver pickles histories: "history/" + class_dir. -/
def run_history_folder (nClasses nAttr : Nat) (fast : Bool) : String :=
  "history/" ++ eval_class_dir nClasses nAttr fast

/-- Full history pickle path of the driver:
    "history/" + class_dir + "histories_sub{subset}_b{n_bootstrap}.pkl". -/
def run_history_path (nClasses nAttr : Nat) (fast : Bool) (subset nBootstrap : Nat) : String :=
  run_history_folder nClasses nAttr fast ++ "histories_sub" ++ toString subset ++ "_b" ++
    toString nBootstrap ++ ".pkl"

/-- Folder into which the driver saves training plots: "plots/" + class_dir. -/
def run_plots_folder (nClasses nAttr : Nat) (fast : Bool) : String :=
  "plots/" ++ eval_class_dir nClasses nAttr fast

/-! ## evaluation.py: train_and_evaluate_shapes (checkpoint reload and history) -/

/-- Training history of one model: metric name to per-epoch values. -/
abbrev History : Type := List (String × List ℚ)

/-- Per-model result of `train_and_evaluate_shapes`: the checkpoint file it
    reloads for test evaluation, and the final enriched history. The external
    trainers and the test evaluation are abstracted as `trainHistory i` (the
    history returned by `train_simple` / `train_cbm` for model i) and `testAcc i`
    (the accuracy returned by `evaluate_on_test_set`); the model list has one
    entry per element of MODEL_STRINGS. Mirrors lines 89-125 of evaluation.py:
    the reloaded state dict is always save_model_path + save_name + "_loss.pth",
    and history["test_accuracy"] = [test_accuracy]. -/
def train_and_evaluate_shapes (nClasses nAttr : Nat) (subDir : String) (fast : Bool)
    (nBootstrap : Nat) (modelStrings : List String) (trainHistory : Nat → History)
    (testAcc : Nat → ℚ) : List (String × History) :=
  (List.range modelStrings.length).map (fun i =>
    let saveModelPath := eval_save_model_path nClasses nAttr fast subDir
    let saveName := modelStrings.getD i "" ++ "_b" ++ toString nBootstrap
    let loadedCheckpoint := saveModelPath ++ saveName ++ "_loss.pth"
    let history := dictInsert (trainHistory i) "test_accuracy" [testAcc i]
    (loadedCheckpoint, history))

/-! ## evaluation.py: evaluate_on_test_set -/

/-- Output of a model on one input: plain classifiers return class logits, concept
    models return a tuple whose first component is the class logits. -/
inductive ModelOutput where
  | single (logits : List ℚ)
  | withAttributes (logits attrLogits : List ℚ)

/-- The class logits used for accuracy: `outputs[0]` when the output is a tuple,
    mirroring the structural `isinstance(outputs, tuple)` check. -/
def classLogits : ModelOutput → List ℚ
  | .single logits => logits
  | .withAttributes logits _ => logits

/-- Helper of `argmaxIdx`: scan the tail keeping the first index of the maximum. -/
def argmaxFrom : List ℚ → Nat → Nat → ℚ → Nat
  | [], _, best, _ => best
  | x :: xs, i, best, bestVal =>
    if bestVal < x then argmaxFrom xs (i + 1) i x else argmaxFrom xs (i + 1) best bestVal

/-- Index of the (first) maximal logit: `torch.max(outputs, 1)` per row. -/
def argmaxIdx : List ℚ → Nat
  | [] => 0
  | x :: xs => argmaxFrom xs 1 0 x

/-- Number of correct top-1 predictions in one batch:
    `(preds == labels).sum().item()`. Batches are modelled example-wise; each
    element is an input paired with its class label. -/
def batchCorrect {I : Type} (model : I → ModelOutput) (batch : List (I × Nat)) : Nat :=
  batch.countP (fun p => argmaxIdx (classLogits (model p.1)) == p.2)

/-- Embedding of `evaluate_on_test_set`: accumulate `test_correct` over the
    batches of the loader and return 100 * test_correct / len(test_loader.dataset)
    as an exact rational. `datasetSize` is `len(test_loader.dataset)`. -/
def evaluate_on_test_set {I : Type} (model : I → ModelOutput)
    (testBatches : List (List (I × Nat))) (datasetSize : Nat) : ℚ :=
  100 * ((testBatches.map (batchCorrect model)).sum : ℚ) / (datasetSize : ℚ)

/-! ## evaluation.py: run_models_on_subsets_and_plot as an event trace

The driver is embedded as a function producing the ordered list of its calls to
the collaborators that the claims talk about: test-set loading, subset
regeneration (`make_subset_shapes` with its seed), train/val loading, the global
reseeding (`seed_everything`) inside `train_and_evaluate_shapes`, and the per-model
training calls. -/

/-- Observable events of one driver run. -/
inductive Event where
  | loadTestSet
  | makeSubset (nSubset seed : Nat)
  | loadTrainVal (nSubset : Nat)
  | seedEverything (seed : Nat)
  | trainModel (idx : Nat)
deriving DecidableEq

/-- Events emitted by one call to `train_and_evaluate_shapes`: for each model in
    order, `seed_everything(seed)` when a seed was supplied (lines 105-106),
    immediately followed by the training of that model. -/
def trainTrace (nModels : Nat) (seed : Option Nat) : List Event :=
  (List.range nModels).flatMap (fun i =>
    (match seed with
     | some s => [Event.seedEverything s]
     | none => []) ++ [Event.trainModel i])

/-- The bootstrap loop of the driver for one subset, threading the mutable `seed`
    variable: each iteration regenerates the subset with the current seed,
    increments the seed, loads the train/val loaders and trains all models with
    the training seed fixed to `base_seed` (line 185: seed=base_seed). -/
def bootstrapTrace (subset nModels baseSeed : Nat) : Nat → Nat → List Event
  | 0, _ => []
  | k + 1, seed =>
    [Event.makeSubset subset seed, Event.loadTrainVal subset] ++
      trainTrace nModels (some baseSeed) ++
      bootstrapTrace subset nModels baseSeed k (seed + 1)

/-- Events of one subset iteration of the driver: the test loader is constructed
    once, before the bootstrap loop (lines 170-173); after the loop the subset is
    regenerated one final time with the base seed (line 200). -/
def subsetTrace (subset nModels nBootstrap baseSeed : Nat) : List Event :=
  [Event.loadTestSet] ++ bootstrapTrace subset nModels baseSeed nBootstrap baseSeed ++
    [Event.makeSubset subset baseSeed]

/-- Embedding of the control flow of `run_models_on_subsets_and_plot` over the
    requested subsets. -/
def run_models_on_subsets_trace (subsets : List Nat) (nModels nBootstrap baseSeed : Nat) :
    List Event :=
  subsets.flatMap (fun subset => subsetTrace subset nModels nBootstrap baseSeed)

/-! ## add_histories (HistoryAggregator) -/

/-- Modelled from the spec: `add_histories` is imported from `utils.py`, which is
    not among the provided sources. Elementwise addition of two equal-length
    per-epoch sequences; sequences of different lengths are a contract violation
    and fail loudly (spec section 4.3). -/
def addSeq : List ℚ → List ℚ → Except PathError (List ℚ)
  | [], [] => .ok []
  | a :: as, b :: bs =>
    match addSeq as bs with
    | .ok rest => .ok ((a + b) :: rest)
    | .error e => .error e
  | _, _ => .error .valueError

/-- Modelled from the spec: merge of one running-total history with one new
    history: for each metric key present in both, elementwise addition of the
    sequences; keys present in only one operand are kept as they are. -/
def addHistory : History → History → Except PathError History
  | [], _ => .ok []
  | (k, v) :: rest, b =>
    match dictGet b k with
    | some w =>
      match addSeq v w with
      | .error e => .error e
      | .ok s =>
        match addHistory rest b with
        | .error e => .error e
        | .ok r => .ok ((k, s) :: r)
    | none =>
      match addHistory rest b with
      | .error e => .error e
      | .ok r => .ok ((k, v) :: r)

/-- Modelled from the spec: the model-wise merge of the running totals with the
    new histories, one `addHistory` per model index. -/
def addHistoriesList : List (History × History) → Except PathError (List History)
  | [] => .ok []
  | p :: rest =>
    match addHistory p.1 p.2 with
    | .error e => .error e
    | .ok r =>
      match addHistoriesList rest with
      | .error e => .error e
      | .ok rs => .ok (r :: rs)

/-- Modelled from the spec: `add_histories(running_total, new_histories,
    n_bootstrap)` from `utils.py` (not among the provided sources). On the first
    call (running_total is None) it returns `new_histories` unchanged; afterwards
    it merges model-wise. It only sums: the caller divides by n_bootstrap if an
    average is desired, so the result does not depend on `nBootstrap`. -/
def add_histories (runningTotal : Option (List History)) (newHistories : List History)
    (_nBootstrap : Nat) : Except PathError (List History) :=
  match runningTotal with
  | none => .ok newHistories
  | some rt => addHistoriesList (rt.zip newHistories)

/-- Boolean check that every metric key shared by the two histories carries
    sequences of equal length (decidable form of the aggregator precondition). -/
def histLenMatch (a b : History) : Bool :=
  a.all (fun p =>
    match dictGet b p.1 with
    | some w => p.2.length == w.length
    | none => true)

/-! ## Concrete fixtures used to instantiate theorems with hypotheses -/

/-- Concrete sample values for the abstract constants, used to evaluate the
    embeddings on closed inputs. -/
def testConstants : PathConstants where
  resultsFolder := "results"
  hyperparametersFolder := "hyperparameters"
  savedModelsFolder := "saved_models"
  historyFolder := "history"
  plotsFolder := "plots"
  shapesFolder := "shapes"
  fastFileSoft := "fast_hyperparameters.yaml"
  fastFileHard := "fast_hyperparameters_hard.yaml"
  defaultFileSoft := "default_hyperparameters.yaml"
  defaultFileHard := "default_hyperparameters_hard.yaml"
  modelStringsAllShapes := ["cnn", "cbm", "cbm_res", "cbm_skip", "scm"]

/-- Sample soft hyperparameter entry for one model. -/
def softEntryFixture : HPEntry :=
  [("learning_rate", HVal.q 1), ("hard", HVal.b false)]

/-- Sample soft hyperparameter file containing two models. -/
def softFileFixture : HPFile :=
  [("cnn", softEntryFixture), ("cbm", [("gamma", HVal.q 2)])]

/-- Sample default (hard-variant) hyperparameter file. -/
def defaultFileFixture : HPFile := [("cbm", [("hard", HVal.b true)])]

/-- Filesystem holding only the soft-bottleneck subset file for c10_a5_s98 sub1. -/
def fsSoftOnly : FS := fun p =>
  if p = hyperparametersFilePath testConstants "10" "5" "98" "1" false then
    some (some softFileFixture)
  else none

/-- Filesystem holding only the hard global default file. -/
def fsDefaultOnly : FS := fun p =>
  if p = shapesHPBase testConstants ++ "/" ++ testConstants.defaultFileHard then
    some (some defaultFileFixture)
  else none

/-- The empty filesystem. -/
def fsEmpty : FS := fun _ => none

/-! ## General lemmas about the dictionary model -/

theorem dictGet_insert_self {α : Type} (d : List (String × α)) (k : String) (v : α) :
    dictGet (dictInsert d k v) k = some v := by
  induction d with
  | nil => simp [dictInsert, dictGet]
  | cons hd tl ih =>
    by_cases h : hd.1 = k
    · simp [dictInsert, dictGet, h]
    · simp [dictInsert, dictGet, h, ih]

theorem dictGet_insert_ne {α : Type} (d : List (String × α)) (k k2 : String) (v : α)
    (h : k2 ≠ k) : dictGet (dictInsert d k v) k2 = dictGet d k2 := by
  induction d with
  | nil => simp [dictInsert, dictGet, Ne.symm h]
  | cons hd tl ih =>
    by_cases hh : hd.1 = k
    · simp only [dictInsert, hh, if_pos rfl]
      simp [dictGet, Ne.symm h, hh]
    · simp only [dictInsert, if_neg hh]
      by_cases hk : hd.1 = k2
      · simp [dictGet, hk]
      · simp [dictGet, hk, ih]

/-! ## Claim C1 -/

/-- C1: the claim states that the `_hard` suffix is suppressed for
    `model_type="cnn"` in `save_model_shapes` as well as in `load_model_shapes`.
    The source suppresses it only in `save_model_shapes` (line 357); in
    `load_model_shapes` (line 322) `hard_bottleneck=True` still appends `_hard`,
    so for a cnn the two functions resolve different filenames: the save path of
    hard and soft coincide, while the load filenames differ on the concrete
    input n_subset=1, metric="loss". -/
theorem c1_cnn_hard_suffix_save_load :
    (∀ (nSubset : Nat) (metric : String) (adversarial : Bool),
      save_model_shapes_filename "cnn" nSubset metric true adversarial =
        save_model_shapes_filename "cnn" nSubset metric false adversarial) ∧
    (∀ (C : PathConstants) (nClasses nAttr signalStrength : String) (nSubset : Nat)
      (metric : String) (adversarial : Bool),
      save_model_shapes_path C nClasses nAttr signalStrength nSubset "cnn" metric
          true adversarial =
        save_model_shapes_path C nClasses nAttr signalStrength nSubset "cnn" metric
          false adversarial) ∧
    load_model_shapes_filename "cnn" 1 "loss" true false ≠
      load_model_shapes_filename "cnn" 1 "loss" false false := by
  have hcnn : pyStripLower "cnn" = "cnn" := rfl
  refine ⟨?_, ?_, ?_⟩
  · intro nSubset metric adversarial
    simp [save_model_shapes_filename, hcnn]
  · intro C nClasses nAttr signalStrength nSubset metric adversarial
    simp [save_model_shapes_path, save_model_shapes_filename, hcnn]
  · decide

/-! ## Claim C2 -/

/-- C2 counterexample: on the concrete configuration n_classes=10, n_attr=5,
    subset 3, fast=False, the folders used by evaluation.py for model
    checkpoints, histories and plots are built from the class directory
    "c10_a5/", which is not of the form c10_a5_s followed by a signal strength
    (shown for the default signal strength 98). -/
theorem c2_counterexample :
    eval_save_model_path 10 5 false "sub3/" = "saved_models/c10_a5/sub3/" ∧
    run_history_folder 10 5 false = "history/c10_a5/" ∧
    run_plots_folder 10 5 false = "plots/c10_a5/" ∧
    eval_class_dir 10 5 false ≠ get_shapes_folder_name "10" "5" "98" ++ "/" := by
  refine ⟨by decide, by decide, by decide, by decide⟩

/-- C2 amended: the path_utils.py resolvers namespace Shapes artifacts by the
    folder c(n)_a(a)_s(s) including the signal strength, but the folders used by
    the training loop and the driver in evaluation.py are built from the class
    directory c(n)_a(a)/ alone; in particular, for no signal-strength string does
    the evaluation.py class directory for 10 classes and 5 attributes match the
    path_utils.py folder name. -/
theorem c2_amended_namespacing :
    (∀ (C : PathConstants) (nClasses nAttr signalStrength relativeFolder : String),
      get_full_shapes_folder_path C nClasses nAttr signalStrength relativeFolder =
        C.resultsFolder ++ "/" ++ relativeFolder ++ "/" ++ C.shapesFolder ++ "/" ++
          ("c" ++ nClasses ++ "_a" ++ nAttr ++ "_s" ++ signalStrength)) ∧
    (∀ nClasses nAttr : Nat,
      eval_class_dir nClasses nAttr false =
        "c" ++ toString nClasses ++ "_a" ++ toString nAttr ++ "/") ∧
    (∀ sig : String,
      eval_class_dir 10 5 false ≠ get_shapes_folder_name "10" "5" sig ++ "/") := by
  refine ⟨fun _ _ _ _ _ => rfl, fun _ _ => rfl, ?_⟩
  intro sig h
  have hl := congrArg String.length h
  have h1 : (eval_class_dir 10 5 false).length = 7 := rfl
  have h2 : (get_shapes_folder_name "10" "5" sig).length = 8 + sig.length := by
    simp [get_shapes_folder_name, String.length_append]
    rfl
  have h3 : ("/" : String).length = 1 := rfl
  rw [h1, String.length_append, h2, h3] at hl
  omega

/-- C2 witness: the amended statement applied at the default signal strength. -/
theorem c2_witness :
    eval_class_dir 10 5 false ≠ get_shapes_folder_name "10" "5" "98" ++ "/" :=
  c2_amended_namespacing.2.2 "98"

/-! ## Claim C7 -/

/-- C7: `make_file_path` fails with the malformed-filename error for every folder
    whenever the filename contains "/" or "\\", and for a bare filename it
    succeeds, returns the joined path, and invokes folder creation exactly when
    `check_folder_exists` is true. -/
theorem c7_make_file_path :
    (∀ (folder filename : String) (checkFolderExists : Bool),
      (strContainsChar filename '/' || strContainsChar filename '\\') = true →
      make_file_path folder filename checkFolderExists = .error .malformedFilename) ∧
    (∀ (folder filename : String) (checkFolderExists : Bool),
      (strContainsChar filename '/' || strContainsChar filename '\\') = false →
      make_file_path folder filename checkFolderExists =
        .ok (checkFolderExists, folder ++ "/" ++ filename)) := by
  constructor
  · intro folder filename checkFolderExists h
    simp [make_file_path, check_just_file, h]
  · intro folder filename checkFolderExists h
    simp [make_file_path, check_just_file, h]

/-- C7 witness: the spec scenario, with folder creation requested: a filename
    inside a directory fails, a bare filename succeeds and triggers creation. -/
theorem c7_make_file_path_witness :
    ((strContainsChar "sub/evil.pkl" '/' || strContainsChar "sub/evil.pkl" '\\') = true ∧
      make_file_path "plots" "sub/evil.pkl" true = .error .malformedFilename) ∧
    ((strContainsChar "evil.pkl" '/' || strContainsChar "evil.pkl" '\\') = false ∧
      make_file_path "plots" "evil.pkl" true = .ok (true, "plots" ++ "/" ++ "evil.pkl")) :=
  ⟨⟨by decide, c7_make_file_path.1 "plots" "sub/evil.pkl" true (by decide)⟩,
   ⟨by decide, c7_make_file_path.2 "plots" "evil.pkl" true (by decide)⟩⟩

/-! ## Trace lemmas for the driver -/

/-- Test whether an event is the construction of the test-set loader. -/
def isLoadTestSet : Event → Bool
  | Event.loadTestSet => true
  | _ => false

theorem countP_loadTestSet_trainTrace (nModels : Nat) (seed : Option Nat) :
    (trainTrace nModels seed).countP isLoadTestSet = 0 := by
  rw [List.countP_eq_zero]
  intro a ha
  simp only [trainTrace, List.mem_flatMap] at ha
  obtain ⟨i, _, hi⟩ := ha
  cases seed with
  | none =>
    simp at hi
    subst hi
    simp [isLoadTestSet]
  | some s =>
    simp at hi
    rcases hi with h | h <;> subst h <;> simp [isLoadTestSet]

theorem countP_loadTestSet_bootstrapTrace (subset nModels baseSeed : Nat) :
    ∀ k seed, (bootstrapTrace subset nModels baseSeed k seed).countP isLoadTestSet = 0 := by
  intro k
  induction k with
  | zero => intro seed; simp [bootstrapTrace]
  | succ n ih =>
    intro seed
    simp [bootstrapTrace, List.countP_append, List.countP_cons, ih,
      countP_loadTestSet_trainTrace, isLoadTestSet]

theorem seedEverything_mem_trainTrace (nModels b s : Nat)
    (h : Event.seedEverything s ∈ trainTrace nModels (some b)) : s = b := by
  simp only [trainTrace, List.mem_flatMap] at h
  obtain ⟨i, _, hi⟩ := h
  simp at hi
  exact hi

theorem seedEverything_mem_bootstrapTrace (subset nModels baseSeed : Nat) :
    ∀ k seed s, Event.seedEverything s ∈ bootstrapTrace subset nModels baseSeed k seed →
      s = baseSeed := by
  intro k
  induction k with
  | zero => intro seed s h; simp [bootstrapTrace] at h
  | succ n ih =>
    intro seed s h
    simp only [bootstrapTrace, List.cons_append, List.nil_append, List.mem_cons,
      List.mem_append] at h
    rcases h with h | h | h | h
    · cases h
    · cases h
    · exact seedEverything_mem_trainTrace nModels baseSeed s h
    · exact ih (seed + 1) s h

/-! ## Claim C3 -/

/-- C3: with n_bootstrap=2 and base_seed=57, for every requested subset the
    driver emits, in order: one test-loader construction, a subset regeneration
    with seed 57, train/val loading and training (reseeded to 57), a subset
    regeneration with seed 58, train/val loading and training, and a final subset
    regeneration with seed 57 resetting the subset to the base seed; the
    test-loader construction occurs exactly once per subset, and the whole run is
    the concatenation of these per-subset traces. -/
theorem c3_driver_subset_schedule (subsets : List Nat) (nModels subset : Nat) :
    subsetTrace subset nModels 2 57 =
      Event.loadTestSet :: Event.makeSubset subset 57 :: Event.loadTrainVal subset ::
        (trainTrace nModels (some 57) ++
          (Event.makeSubset subset 58 :: Event.loadTrainVal subset ::
            (trainTrace nModels (some 57) ++ [Event.makeSubset subset 57]))) ∧
    (subsetTrace subset nModels 2 57).countP isLoadTestSet = 1 ∧
    run_models_on_subsets_trace subsets nModels 2 57 =
      subsets.flatMap (fun s => subsetTrace s nModels 2 57) := by
  refine ⟨?_, ?_, rfl⟩
  · simp [subsetTrace, bootstrapTrace, List.append_assoc]
  · simp [subsetTrace, List.countP_append, List.countP_cons,
      countP_loadTestSet_bootstrapTrace, isLoadTestSet]

/-! ## Claim C9 -/

/-- C9: inside `train_and_evaluate_shapes` the global state is reseeded
    immediately before training each model, and the driver always passes
    seed=base_seed, so every reseeding event in a whole driver run carries the
    base seed, for every subset list, bootstrap count and model count — the
    training seed never increments, only the subset-regeneration seed does. -/
theorem c9_training_seed_constant :
    (∀ nModels baseSeed : Nat,
      trainTrace nModels (some baseSeed) =
        (List.range nModels).flatMap
          (fun i => [Event.seedEverything baseSeed, Event.trainModel i])) ∧
    (∀ (subsets : List Nat) (nModels nBootstrap baseSeed s : Nat),
      Event.seedEverything s ∈ run_models_on_subsets_trace subsets nModels nBootstrap baseSeed →
      s = baseSeed) := by
  refine ⟨fun _ _ => rfl, ?_⟩
  intro subsets nModels nBootstrap baseSeed s h
  simp only [run_models_on_subsets_trace, List.mem_flatMap] at h
  obtain ⟨subset, _, hmem⟩ := h
  simp only [subsetTrace, List.cons_append, List.nil_append, List.mem_cons,
    List.mem_append] at hmem
  rcases hmem with h | h | h
  · cases h
  · exact seedEverything_mem_bootstrapTrace subset nModels baseSeed nBootstrap baseSeed s h
  · simp at h

/-- C9 witness: a concrete one-subset, one-bootstrap run with base seed 57. -/
theorem c9_witness :
    Event.seedEverything 57 ∈ run_models_on_subsets_trace [3] 1 1 57 ∧ (57 : Nat) = 57 :=
  ⟨by decide, c9_training_seed_constant.2 [3] 1 1 57 57 (by decide)⟩

/-! ## Claim C6 -/

theorem str_append_left_cancel (a b c : String) (h : a ++ b = a ++ c) : b = c := by
  have hd : (a ++ b).data = (a ++ c).data := by rw [h]
  simp [String.data_append] at hd
  exact String.ext hd

/-- C6: for every model, `train_and_evaluate_shapes` reloads the checkpoint whose
    name ends in "_loss.pth" — never the "_accuracy.pth" one, whatever the
    training histories and accuracies are — evaluates on the test set, and stores
    the resulting accuracy in the history as the single-element sequence under
    the key "test_accuracy". -/
theorem c6_checkpoint_selection (nClasses nAttr : Nat) (subDir : String) (fast : Bool)
    (nBootstrap : Nat) (modelStrings : List String) (trainHistory : Nat → History)
    (testAcc : Nat → ℚ) (i : Nat) (h : i < modelStrings.length) :
    ∃ stem : String,
      (train_and_evaluate_shapes nClasses nAttr subDir fast nBootstrap modelStrings
          trainHistory testAcc)[i]? =
        some (stem ++ "_loss.pth",
          dictInsert (trainHistory i) "test_accuracy" [testAcc i]) ∧
      stem ++ "_loss.pth" ≠ stem ++ "_accuracy.pth" ∧
      dictGet (dictInsert (trainHistory i) "test_accuracy" [testAcc i]) "test_accuracy" =
        some [testAcc i] := by
  refine ⟨eval_save_model_path nClasses nAttr fast subDir ++
      (modelStrings.getD i "" ++ "_b" ++ toString nBootstrap), ?_, ?_, ?_⟩
  · simp [train_and_evaluate_shapes, List.getElem?_map, List.getElem?_range, h,
      String.append_assoc]
  · intro hEq
    have hsuffix := str_append_left_cancel _ _ _ hEq
    exact absurd hsuffix (by decide)
  · exact dictGet_insert_self _ _ _

/-- History fixture used for the C6 witness. -/
def trainHistoryFixture : Nat → History := fun _ => [("val_loss", [1, 2])]

/-- Test-accuracy fixture used for the C6 witness. -/
def testAccFixture : Nat → ℚ := fun _ => 50

/-- C6 witness: the theorem applied to one concrete model list. -/
theorem c6_witness :
    (0 : Nat) < (["cnn"] : List String).length ∧
    ∃ stem : String,
      (train_and_evaluate_shapes 10 5 "sub3/" false 2 ["cnn"] trainHistoryFixture
          testAccFixture)[0]? =
        some (stem ++ "_loss.pth",
          dictInsert (trainHistoryFixture 0) "test_accuracy" [testAccFixture 0]) ∧
      stem ++ "_loss.pth" ≠ stem ++ "_accuracy.pth" ∧
      dictGet (dictInsert (trainHistoryFixture 0) "test_accuracy" [testAccFixture 0])
          "test_accuracy" =
        some [testAccFixture 0] :=
  ⟨by decide,
   c6_checkpoint_selection 10 5 "sub3/" false 2 ["cnn"] trainHistoryFixture testAccFixture 0
     (by decide)⟩

/-! ## Claim C10 -/

/-- C10: `evaluate_on_test_set` returns 100 times the number of correct top-1
    predictions divided by the dataset size — a percentage, not a fraction — and
    whenever the batches of the loader cover exactly the dataset the value lies
    between 0 and 100 inclusive. -/
theorem c10_test_accuracy_bounds {I : Type} (model : I → ModelOutput)
    (testBatches : List (List (I × Nat))) (datasetSize : Nat)
    (hcover : (testBatches.map List.length).sum = datasetSize) :
    evaluate_on_test_set model testBatches datasetSize =
      100 * ((testBatches.map (batchCorrect model)).sum : ℚ) / (datasetSize : ℚ) ∧
    0 ≤ evaluate_on_test_set model testBatches datasetSize ∧
    evaluate_on_test_set model testBatches datasetSize ≤ 100 := by
  have hle : (testBatches.map (batchCorrect model)).sum ≤ datasetSize := by
    rw [← hcover]
    exact List.sum_le_sum (fun b _ => List.countP_le_length _)
  refine ⟨rfl, ?_, ?_⟩
  · unfold evaluate_on_test_set
    apply div_nonneg <;> positivity
  · unfold evaluate_on_test_set
    rcases Nat.eq_zero_or_pos datasetSize with hz | hpos
    · subst hz
      have hzero : (testBatches.map (batchCorrect model)).sum = 0 := Nat.le_zero.mp hle
      simp [hzero]
    · rw [div_le_iff₀ (by exact_mod_cast hpos)]
      have hc : ((testBatches.map (batchCorrect model)).sum : ℚ) ≤ (datasetSize : ℚ) := by
        exact_mod_cast hle
      nlinarith

/-- Model fixture for the C10 witness: constant logits preferring class 0. -/
def modelFixture : Nat → ModelOutput := fun _ => ModelOutput.single [1, 0]

/-- C10 witness: one batch of one correctly classified example. -/
theorem c10_witness :
    ((([[(0, 0)]] : List (List (Nat × Nat))).map List.length).sum = 1) ∧
    (0 ≤ evaluate_on_test_set modelFixture [[(0, 0)]] 1 ∧
      evaluate_on_test_set modelFixture [[(0, 0)]] 1 ≤ 100) :=
  ⟨by decide, (c10_test_accuracy_bounds modelFixture [[(0, 0)]] 1 (by decide)).2⟩

/-! ## Claim C4 -/

/-- C4: with fast=False, default=False and hard_bottleneck=True, when the exact
    hard-bottleneck hyperparameter file is missing but the soft-bottleneck file
    of the same class/attribute/subset exists, `load_hyperparameters_shapes`
    returns the soft set with the hard flag of every model entry overwritten to
    True, together with a non-fatal warning; when neither file exists it returns
    the hard-variant global default file with a warning — in both cases an `ok`
    result, never an error. -/
theorem c4_hyperparameter_fallback (C : PathConstants) (fs : FS)
    (nClasses nAttr signalStrength nSubset : Nat) :
    (∀ soft : HPFile,
      fs (hyperparametersFilePath C (toString nClasses) (toString nAttr)
        (toString signalStrength) (toString nSubset) true) = none →
      fs (hyperparametersFilePath C (toString nClasses) (toString nAttr)
        (toString signalStrength) (toString nSubset) false) = some (some soft) →
      load_hyperparameters_shapes C fs (some nClasses) (some nAttr) (some signalStrength)
          (some nSubset) true false false =
        .ok (true, some (soft.map setHardEntry))) ∧
    (∀ d : HPFile,
      fs (hyperparametersFilePath C (toString nClasses) (toString nAttr)
        (toString signalStrength) (toString nSubset) true) = none →
      fs (hyperparametersFilePath C (toString nClasses) (toString nAttr)
        (toString signalStrength) (toString nSubset) false) = none →
      fs (shapesHPBase C ++ "/" ++ C.defaultFileHard) = some (some d) →
      load_hyperparameters_shapes C fs (some nClasses) (some nAttr) (some signalStrength)
          (some nSubset) true false false =
        .ok (true, some d)) := by
  constructor
  · intro soft h1 h2
    simp [load_hyperparameters_shapes, pyStr, h1, h2]
  · intro d h1 h2 h3
    simp [load_hyperparameters_shapes, loadGlobalHyperparametersShapes, pyStr, h1, h2, h3]

/-- C4 witness: the fallback evaluated on two concrete filesystems, one holding
    only the soft subset file, one holding only the hard global default file. -/
theorem c4_witness :
    (fsSoftOnly (hyperparametersFilePath testConstants "10" "5" "98" "1" true) = none ∧
      fsSoftOnly (hyperparametersFilePath testConstants "10" "5" "98" "1" false) =
        some (some softFileFixture) ∧
      load_hyperparameters_shapes testConstants fsSoftOnly (some 10) (some 5) (some 98)
          (some 1) true false false =
        .ok (true, some (softFileFixture.map setHardEntry))) ∧
    (fsDefaultOnly (hyperparametersFilePath testConstants "10" "5" "98" "1" true) = none ∧
      fsDefaultOnly (hyperparametersFilePath testConstants "10" "5" "98" "1" false) = none ∧
      fsDefaultOnly (shapesHPBase testConstants ++ "/" ++ testConstants.defaultFileHard) =
        some (some defaultFileFixture) ∧
      load_hyperparameters_shapes testConstants fsDefaultOnly (some 10) (some 5) (some 98)
          (some 1) true false false =
        .ok (true, some defaultFileFixture)) :=
  ⟨⟨by decide, by decide,
    (c4_hyperparameter_fallback testConstants fsSoftOnly 10 5 98 1).1 softFileFixture
      (by decide) (by decide)⟩,
   ⟨by decide, by decide, by decide,
    (c4_hyperparameter_fallback testConstants fsDefaultOnly 10 5 98 1).2 defaultFileFixture
      (by decide) (by decide) (by decide)⟩⟩

/-! ## Claim C5 -/

/-- C5: saving hyperparameters for model A with values X, then for model B with
    values Y, on the same class/attribute/subset/hardness key, is a
    read-modify-write: loading afterwards yields a file mapping A to X and B to
    Y, and every model other than A and B keeps exactly the entry it had in the
    original file (empty when the file did not exist or was empty yaml). -/
theorem c5_save_roundtrip (C : PathConstants) (fs : FS)
    (nClasses nAttr signalStrength nSubset : Nat) (hardBottleneck : Bool)
    (A B : String) (X Y : HPEntry)
    (hA : A ∈ C.modelStringsAllShapes) (hB : B ∈ C.modelStringsAllShapes) (hne : A ≠ B) :
    ∃ full : HPFile,
      ((save_hyperparameters_shapes C fs nClasses nAttr signalStrength nSubset X A
          hardBottleneck).bind (fun fs1 =>
        (save_hyperparameters_shapes C fs1 nClasses nAttr signalStrength nSubset Y B
          hardBottleneck).bind (fun fs2 =>
          load_hyperparameters_shapes C fs2 (some nClasses) (some nAttr) (some signalStrength)
            (some nSubset) hardBottleneck false false))) = .ok (false, some full) ∧
      dictGet full A = some X ∧
      dictGet full B = some Y ∧
      (∀ m : String, m ≠ A → m ≠ B →
        dictGet full m =
          dictGet (((fs (hyperparametersFilePath C (toString nClasses) (toString nAttr)
            (toString signalStrength) (toString nSubset) hardBottleneck)).getD
              (some [])).getD []) m) := by
  cases hfs : fs (hyperparametersFilePath C (toString nClasses) (toString nAttr)
      (toString signalStrength) (toString nSubset) hardBottleneck) with
  | none =>
    refine ⟨[(A, X), (B, Y)], ?_, ?_, ?_, ?_⟩
    · simp [save_hyperparameters_shapes, load_hyperparameters_shapes, hA, hB, hfs,
        fsUpdate, pyStr, dictInsert, hne, Except.bind]
    · simp [dictGet]
    · simp [dictGet, hne]
    · intro m hmA hmB
      simp [dictGet, hfs, Ne.symm hmA, Ne.symm hmB]
  | some content =>
    refine ⟨dictInsert (dictInsert (content.getD []) A X) B Y, ?_, ?_, ?_, ?_⟩
    · simp [save_hyperparameters_shapes, load_hyperparameters_shapes, hA, hB, hfs,
        fsUpdate, pyStr, Except.bind]
    · rw [dictGet_insert_ne _ _ _ _ hne, dictGet_insert_self]
    · rw [dictGet_insert_self]
    · intro m hmA hmB
      rw [dictGet_insert_ne _ _ _ _ hmB, dictGet_insert_ne _ _ _ _ hmA]
      simp [hfs]

/-- C5 witness: the round-trip performed for models "cnn" and "cbm" starting from
    the empty filesystem. -/
theorem c5_witness :
    ("cnn" ∈ testConstants.modelStringsAllShapes ∧
      "cbm" ∈ testConstants.modelStringsAllShapes ∧ ("cnn" : String) ≠ "cbm") ∧
    ∃ full : HPFile,
      ((save_hyperparameters_shapes testConstants fsEmpty 10 5 98 1 softEntryFixture "cnn"
          false).bind (fun fs1 =>
        (save_hyperparameters_shapes testConstants fs1 10 5 98 1 [("gamma", HVal.q 2)]
          "cbm" false).bind (fun fs2 =>
          load_hyperparameters_shapes testConstants fs2 (some 10) (some 5) (some 98)
            (some 1) false false false))) = .ok (false, some full) ∧
      dictGet full "cnn" = some softEntryFixture ∧
      dictGet full "cbm" = some [("gamma", HVal.q 2)] ∧
      (∀ m : String, m ≠ "cnn" → m ≠ "cbm" →
        dictGet full m =
          dictGet (((fsEmpty (hyperparametersFilePath testConstants (toString 10) (toString 5)
            (toString 98) (toString 1) false)).getD (some [])).getD []) m) :=
  ⟨⟨by decide, by decide, by decide⟩,
   c5_save_roundtrip testConstants fsEmpty 10 5 98 1 false "cnn" "cbm" softEntryFixture
     [("gamma", HVal.q 2)] (by decide) (by decide) (by decide)⟩

/-! ## Claim C8 -/

theorem addSeq_ok (x y : List ℚ) (h : x.length = y.length) :
    addSeq x y = .ok (List.zipWith (· + ·) x y) := by
  induction x generalizing y with
  | nil =>
    cases y with
    | nil => rfl
    | cons b bs => simp at h
  | cons a tl ih =>
    cases y with
    | nil => simp at h
    | cons b bs =>
      simp only [List.length_cons, Nat.add_right_cancel_iff] at h
      simp [addSeq, ih bs h]

theorem addSeq_mismatch (x y : List ℚ) (h : x.length ≠ y.length) :
    ∀ s, addSeq x y ≠ .ok s := by
  induction x generalizing y with
  | nil =>
    intro s hs
    cases y with
    | nil => simp at h
    | cons b bs => simp [addSeq] at hs
  | cons a tl ih =>
    intro s hs
    cases y with
    | nil => simp [addSeq] at hs
    | cons b bs =>
      have hlen2 : tl.length ≠ bs.length := by simpa using h
      cases hr : addSeq tl bs with
      | ok r => exact ih bs hlen2 r hr
      | error e =>
        simp only [addSeq, hr] at hs
        exact Except.noConfusion hs

theorem addHistory_ok (a b : History) (hmatch : histLenMatch a b = true) :
    ∃ r, addHistory a b = .ok r ∧
      ∀ (k : String) (x y : List ℚ), dictGet a k = some x → dictGet b k = some y →
        dictGet r k = some (List.zipWith (· + ·) x y) := by
  induction a with
  | nil =>
    refine ⟨[], rfl, ?_⟩
    intro k x y hx
    simp [dictGet] at hx
  | cons hd tl ih =>
    obtain ⟨k0, v0⟩ := hd
    simp only [histLenMatch, List.all_cons, Bool.and_eq_true] at hmatch
    obtain ⟨hm1, hm2⟩ := hmatch
    obtain ⟨r, hr, hprop⟩ := ih hm2
    cases hb : dictGet b k0 with
    | none =>
      refine ⟨(k0, v0) :: r, ?_, ?_⟩
      · simp only [addHistory, hb, hr]
      · intro k x y hx hy
        by_cases hk : k0 = k
        · subst hk
          rw [hb] at hy
          cases hy
        · simp only [dictGet, if_neg hk] at hx ⊢
          exact hprop k x y hx hy
    | some w =>
      rw [hb] at hm1
      have hlen : v0.length = w.length := by simpa using hm1
      refine ⟨(k0, List.zipWith (· + ·) v0 w) :: r, ?_, ?_⟩
      · simp only [addHistory, hb, addSeq_ok v0 w hlen, hr]
      · intro k x y hx hy
        by_cases hk : k0 = k
        · subst hk
          simp only [dictGet, if_pos rfl] at hx ⊢
          rw [hb] at hy
          cases hx
          cases hy
          rfl
        · simp only [dictGet, if_neg hk] at hx ⊢
          exact hprop k x y hx hy

theorem addHistory_mismatch (a b : History) (k : String) (x y : List ℚ)
    (hx : dictGet a k = some x) (hy : dictGet b k = some y)
    (hlen : x.length ≠ y.length) : ∀ r, addHistory a b ≠ .ok r := by
  induction a with
  | nil => simp [dictGet] at hx
  | cons hd tl ih =>
    obtain ⟨k0, v0⟩ := hd
    intro r hr
    by_cases hk : k0 = k
    · subst hk
      simp [dictGet] at hx
      cases hs : addSeq v0 y with
      | ok s => exact addSeq_mismatch v0 y (hx ▸ hlen) s hs
      | error e =>
        simp only [addHistory, hy, hs] at hr
        exact Except.noConfusion hr
    · simp only [dictGet, if_neg hk] at hx
      cases hb : dictGet b k0 with
      | none =>
        cases hrec : addHistory tl b with
        | ok r2 => exact ih hx r2 hrec
        | error e =>
          simp only [addHistory, hb, hrec] at hr
          exact Except.noConfusion hr
      | some w =>
        cases hs : addSeq v0 w with
        | error e =>
          simp only [addHistory, hb, hs] at hr
          exact Except.noConfusion hr
        | ok s =>
          cases hrec : addHistory tl b with
          | ok r2 => exact ih hx r2 hrec
          | error e =>
            simp only [addHistory, hb, hs, hrec] at hr
            exact Except.noConfusion hr

theorem addHistoriesList_ok (l : List (History × History))
    (h : ∀ p ∈ l, histLenMatch p.1 p.2 = true) :
    ∃ R, addHistoriesList l = .ok R ∧ R.length = l.length ∧
      ∀ i (hi : i < l.length) (k : String) (x y : List ℚ),
        dictGet (l.get ⟨i, hi⟩).1 k = some x → dictGet (l.get ⟨i, hi⟩).2 k = some y →
        ∃ ri, R[i]? = some ri ∧ dictGet ri k = some (List.zipWith (· + ·) x y) := by
  induction l with
  | nil =>
    refine ⟨[], rfl, rfl, ?_⟩
    intro i hi
    simp at hi
  | cons p tl ih =>
    obtain ⟨r0, hr0, hprop0⟩ := addHistory_ok p.1 p.2 (h p (by simp))
    obtain ⟨R, hR, hlenR, hprop⟩ := ih (fun q hq => h q (List.mem_cons_of_mem _ hq))
    refine ⟨r0 :: R, ?_, by simp [hlenR], ?_⟩
    · simp only [addHistoriesList, hr0, hR]
    · intro i hi k x y hx hy
      cases i with
      | zero =>
        exact ⟨r0, by simp, hprop0 k x y hx hy⟩
      | succ j =>
        have hj : j < tl.length := by simpa using hi
        obtain ⟨ri, hri, hdi⟩ := hprop j hj k x y hx hy
        exact ⟨ri, by simpa using hri, hdi⟩

/-- C8: the history aggregator returns the new histories unchanged on the first
    call; it never divides by n_bootstrap (the result is independent of it); the
    two-step accumulation over shared metric keys of equal length is elementwise
    addition; and a shared key with sequences of different lengths makes the
    aggregation fail with an error instead of truncating or padding. -/
theorem c8_aggregator_sum_law :
    (∀ (A : List History) (n : Nat), add_histories none A n = .ok A) ∧
    (∀ (rt : Option (List History)) (new : List History) (n m : Nat),
      add_histories rt new n = add_histories rt new m) ∧
    (∀ (A B A1 : List History) (n : Nat),
      add_histories none A n = .ok A1 →
      ((A1.zip B).all (fun p => histLenMatch p.1 p.2)) = true →
      ∃ R, add_histories (some A1) B n = .ok R ∧ R.length = (A1.zip B).length ∧
        ∀ i (hi : i < (A1.zip B).length) (k : String) (x y : List ℚ),
          dictGet ((A1.zip B).get ⟨i, hi⟩).1 k = some x →
          dictGet ((A1.zip B).get ⟨i, hi⟩).2 k = some y →
          ∃ ri, R[i]? = some ri ∧ dictGet ri k = some (List.zipWith (· + ·) x y)) ∧
    (∀ (a b : History) (n : Nat) (k : String) (x y : List ℚ),
      dictGet a k = some x → dictGet b k = some y → x.length ≠ y.length →
      ∀ R, add_histories (some [a]) [b] n ≠ .ok R) := by
  refine ⟨fun _ _ => rfl, fun _ _ _ _ => rfl, ?_, ?_⟩
  · intro A B A1 n hfirst hall
    cases hfirst
    exact addHistoriesList_ok (A.zip B) (by simpa [List.all_eq_true] using hall)
  · intro a b n k x y hx hy hlen R hR
    cases hah : addHistory a b with
    | ok r => exact addHistory_mismatch a b k x y hx hy hlen r hah
    | error e => simp [add_histories, addHistoriesList, hah] at hR

/-- C8 witness: two single-model history lists sharing the key "train_loss" with
    per-epoch values of equal length. -/
theorem c8_witness :
    (add_histories none [[("train_loss", [1, 2])]] 2 = .ok [[("train_loss", [1, 2])]]) ∧
    ((([[("train_loss", [1, 2])]] : List History).zip
        [[("train_loss", [3, 4])]]).all (fun p => histLenMatch p.1 p.2) = true) ∧
    ∃ R, add_histories (some [[("train_loss", [1, 2])]]) [[("train_loss", [3, 4])]] 2 =
        .ok R ∧
      R.length = ((([[("train_loss", [1, 2])]] : List History).zip
        [[("train_loss", [3, 4])]])).length ∧
      ∀ i (hi : i < ((([[("train_loss", [1, 2])]] : List History).zip
          [[("train_loss", [3, 4])]])).length) (k : String) (x y : List ℚ),
        dictGet (((([[("train_loss", [1, 2])]] : List History).zip
          [[("train_loss", [3, 4])]])).get ⟨i, hi⟩).1 k = some x →
        dictGet (((([[("train_loss", [1, 2])]] : List History).zip
          [[("train_loss", [3, 4])]])).get ⟨i, hi⟩).2 k = some y →
        ∃ ri, R[i]? = some ri ∧ dictGet ri k = some (List.zipWith (· + ·) x y) :=
  ⟨rfl, by decide,
   c8_aggregator_sum_law.2.2.1 [[("train_loss", [1, 2])]] [[("train_loss", [3, 4])]]
     [[("train_loss", [1, 2])]] 2 rfl (by decide)⟩

end HybridCBM
